import Mathlib

/-
Verification development for the imagen web application (src/index.tsx).

The shallow embedding below models the generation orchestration pipeline of
the current revision of src/index.tsx (the file's second revision, containing
the dual model paths, the history ledger and the background persistence):

  * generateImages        (src/index.tsx, lines 804-997)
  * getDiversePrompts     (src/index.tsx, lines 774-802)
  * getImageMetadata      (src/index.tsx, lines 696-728)
  * populateImageContainer(src/index.tsx, lines 533-594)
  * addToHistory / saveHistory / loadHistory (src/index.tsx, lines 645-687)

Backing network calls (ai.models.generateContent, ai.models.generateImages,
generateCaption's call, JSON.parse of structured responses, localStorage) are
modelled as an explicit environment of per-call outcomes: a call either throws
(Except.error with the thrown message) or returns a parsed value.  DOM effects
are modelled as the observable data they carry (gallery slot states, the
history list, counters, the list of fire-and-forget save payloads).
-/

namespace Imagen

/-- One generated image: `imageData.image.{imageBytes, mimeType}` in the source
(the `GeneratedImage` payload), flattened to its two fields. -/
structure Image where
  imageBytes : String
  mimeType : String
deriving DecidableEq, Repr

/-- One part of a multimodal response: `part.text` and/or `part.inlineData`.
An absent field is `none`; JS truthiness of `part.text` additionally treats
the empty string as absent. -/
structure Part where
  text : Option String
  inlineData : Option Image
deriving DecidableEq, Repr

/-- A history ledger entry (interface `HistoryItem`, src/index.tsx lines 429-435). -/
structure HistoryItem where
  id : Nat
  prompt : String
  model : String
  thumbnail : String
  timestamp : Nat
deriving DecidableEq, Repr

/-- The payload handed to `saveImageToDatabase` (src/index.tsx lines 734-739):
one fire-and-forget persistence request per successful unit. -/
structure SaveRecord where
  base64 : String
  prompt : String
  model : String
  caption : String
deriving DecidableEq, Repr

/-- Result of `getImageMetadata` (src/index.tsx lines 696-728). -/
structure Metadata where
  title : String
  category : String
deriving DecidableEq, Repr

/-- Observable state of one gallery placeholder (`.image-container` div):
still loading, populated with an image and caption, or overwritten with an
inline failure message. -/
inductive SlotState where
  | loading
  | rendered (image : Image) (caption : String)
  | failed (message : String)
deriving DecidableEq, Repr

/-- Overall outcome of one `generateImages` run: rejected by the empty-prompt
check (early `return`), aborted by a thrown error reaching the outer `catch`,
or ran to the end of the `try` block. -/
inductive RunOutcome where
  | validationError (message : String)
  | topLevelError (message : String)
  | completed
deriving DecidableEq, Repr

/-- The user inputs read at the start of `generateImages` (src/index.tsx
lines 817-819): prompt text, parsed image count, selected model id and the
diverse-subjects checkbox. -/
structure Request where
  prompt : String
  numberOfImages : Nat
  selectedModel : String
  diversify : Bool
deriving DecidableEq, Repr

/-- Outcomes of the backing network calls, indexed by the position of the call
in the run.  `Except.error msg` models the call (or the `JSON.parse` of its
text) throwing with message `msg`.
  * `geminiResponses i`: the `ai.models.generateContent` call for unit `i` on
    the gemini path; `Option (List Part)` is `response.candidates?.[0]?.content.parts`
    (`none` when the chain is absent).
  * `imagenUnitResponses i`: the per-unit `ai.models.generateImages` call on
    the imagen diversify path; the list is `response.generatedImages`
    (`[]` also covers an absent field, which the source treats identically).
  * `imagenBulkResponse`: the single batched `ai.models.generateImages` call.
  * `divBacking`: the `getDiversePrompts` backing call; `Option (List String)`
    is the parsed `result.prompts` field (`none`: missing or not an array).
  * `captionResponses i`: the `generateCaption` call made for unit `i` by the
    orchestrator (imagen paths).
  * `lazyCaptionResponses i`: the deferred `generateCaption` call made from
    `populateImageContainer`'s `img.onload` handler for slot `i` when no
    pregenerated caption was supplied. -/
structure Env where
  geminiResponses : Nat → Except String (Option (List Part))
  imagenUnitResponses : Nat → Except String (List Image)
  imagenBulkResponse : Except String (List Image)
  divBacking : Except String (Option (List String))
  captionResponses : Nat → Except String String
  lazyCaptionResponses : Nat → Except String String

/-- Mutable state threaded through the generation loops: the gallery
placeholder slots, `allGeneratedImages`, the launched `saveImageToDatabase`
payloads, and the number of backing network calls issued so far. -/
structure LoopState where
  slots : List SlotState
  generated : List Image
  saves : List SaveRecord
  calls : Nat
deriving Repr

/-- Everything observable at the end of one `generateImages` run. -/
structure RunResult where
  outcome : RunOutcome
  slots : List SlotState
  galleryReplaced : Option String
  generated : List Image
  history : List HistoryItem
  totalGenerated : Nat
  saves : List SaveRecord
  networkCalls : Nat
  orchestrationStarted : Bool
  downloadVisible : Bool
deriving DecidableEq, Repr

/-- The model id string selecting the sequential multimodal path
(src/index.tsx line 830). -/
def GEMINI_MODEL : String := "gemini-2.5-flash-image-preview"

/-- The per-unit inline failure message written into a gallery slot
(src/index.tsx lines 885 and 921). -/
def failMessage (p : String) : String :=
  s!"Failed to generate image for prompt: \x22{p}\x22"

/-- The part-scanning loop of the gemini path (src/index.tsx lines 855-858):
`if (part.text) captionText = part.text; else if (part.inlineData)
imageBase64 = part.inlineData.data;` — each later matching part overwrites
the earlier one, and a part with truthy text never contributes its image. -/
def scanParts : List Part → Option String → String → Option String × String
  | [], imageBase64, captionText => (imageBase64, captionText)
  | p :: rest, imageBase64, captionText =>
    match p.text with
    | some t =>
      if t.isEmpty then
        match p.inlineData with
        | some d => scanParts rest (some d.imageBytes) captionText
        | none => scanParts rest imageBase64 captionText
      else scanParts rest imageBase64 t
    | none =>
      match p.inlineData with
      | some d => scanParts rest (some d.imageBytes) captionText
      | none => scanParts rest imageBase64 captionText

/-- `response.candidates?.[0]?.content?.parts?.find(p => p.inlineData)?.inlineData?.mimeType
|| 'image/png'` (src/index.tsx line 865): the mime type of the FIRST
image-bearing part, with `'image/png'` when absent or falsy. -/
def firstImageMime (parts : List Part) : String :=
  match parts.find? (fun p => p.inlineData.isSome) with
  | some p =>
    match p.inlineData with
    | some d => if d.mimeType.isEmpty then "image/png" else d.mimeType
    | none => "image/png"
  | none => "image/png"

/-- `populateImageContainer` (src/index.tsx lines 533-594), reduced to the
slot state it produces: a truthy `pregeneratedCaption` is rendered directly;
otherwise the deferred `img.onload` caption call runs, falling back to the
fixed string `"Could not generate caption."` when it throws. -/
def populateImageContainer (imageData : Image) (imagePrompt : String)
    (pregeneratedCaption : String) (lazyCaption : Except String String) : SlotState :=
  if pregeneratedCaption.isEmpty then
    match lazyCaption with
    | .ok c => .rendered imageData c
    | .error _ => .rendered imageData "Could not generate caption."
  else
    .rendered imageData pregeneratedCaption

/-- The orchestrator's caption acquisition on the imagen paths (src/index.tsx
lines 902-907 and 951-956): `let captionText = 'Caption not available.';
try { captionText = await generateCaption(...) } catch { ... }`. -/
def captionOrFallback (resp : Except String String) : String :=
  match resp with
  | .ok c => c
  | .error _ => "Caption not available."

/-- `getImageMetadata` (src/index.tsx lines 696-728).  `backing` is the
classification call together with the `JSON.parse` of its text: a thrown call
is `.error`, text that is not valid JSON is `.ok none` (the parse throws
inside the same `try`), and well-formed output is `.ok (some m)`.  Every
failure is caught and replaced by the deterministic fallback. -/
def getImageMetadata (prompt : String) (backing : Except String (Option Metadata)) :
    Metadata :=
  match backing with
  | .ok (some m) => m
  | _ => { title := prompt.take 50, category := "Other" }

/-- `getDiversePrompts` (src/index.tsx lines 774-802): propagates a thrown
backing call, and accepts any parsed `prompts` array with `length > 0`
(`result.prompts && Array.isArray(result.prompts) && result.prompts.length > 0`);
otherwise throws `'Failed to generate a valid set of diverse prompts.'`. -/
def getDiversePrompts (backing : Except String (Option (List String))) :
    Except String (List String) :=
  match backing with
  | .error msg => .error msg
  | .ok none => .error "Failed to generate a valid set of diverse prompts."
  | .ok (some prompts) =>
    if prompts.length > 0 then .ok prompts
    else .error "Failed to generate a valid set of diverse prompts."

/-- `addToHistory` (src/index.tsx lines 670-681): builds a new `HistoryItem`
stamped with `Date.now()` and `unshift`s it onto the front of the ledger. -/
def addToHistory (now : Nat) (prompt model : String) (image : Image)
    (history : List HistoryItem) : List HistoryItem :=
  { id := now, prompt := prompt, model := model,
    thumbnail := image.imageBytes, timestamp := now } :: history

/-- `saveHistory` (src/index.tsx lines 645-652): persists the full ledger as
the stored value for the history key. -/
def saveHistory (history : List HistoryItem) : Option (List HistoryItem) :=
  some history

/-- `loadHistory` (src/index.tsx lines 654-668): restores the ledger from
storage; an absent key (`.ok none`) or a parse failure (`.error`) both yield
the empty ledger. -/
def loadHistory (stored : Except String (Option (List HistoryItem))) :
    List HistoryItem :=
  match stored with
  | .ok (some h) => h
  | .ok none => []
  | .error _ => []

/-- One iteration of the gemini-path loop (src/index.tsx lines 839-889).
The per-unit `try/catch` confines every failure — a thrown call, an absent
part list, or no image part — to this unit's slot.  On success the image is
pushed onto `allGeneratedImages` BEFORE the slot is populated; a missing
placeholder (index beyond the created slots) makes `populateImageContainer`
throw, which the per-unit `catch` swallows after the push, so the image is
counted but neither rendered nor saved. -/
def geminiStep (env : Env) (model : String) (st : LoopState) (i : Nat)
    (currentPrompt : String) : LoopState :=
  let calls := st.calls + 1
  match env.geminiResponses i with
  | .error _ =>
    { st with calls := calls,
              slots := st.slots.set i (.failed (failMessage currentPrompt)) }
  | .ok partsOpt =>
    let parts := partsOpt.getD []
    let scanned := scanParts parts none "Caption not available."
    match scanned.1 with
    | some b =>
      let imageData : Image := { imageBytes := b, mimeType := firstImageMime parts }
      if i < st.slots.length then
        { slots := st.slots.set i
            (populateImageContainer imageData currentPrompt scanned.2
              (env.lazyCaptionResponses i)),
          generated := st.generated ++ [imageData],
          saves := st.saves ++
            [{ base64 := b, prompt := currentPrompt, model := model,
               caption := scanned.2 }],
          calls := calls }
      else
        { st with generated := st.generated ++ [imageData], calls := calls }
    | none =>
      { st with calls := calls,
                slots := st.slots.set i (.failed (failMessage currentPrompt)) }

/-- The gemini-path loop over the prompt plan, in index order. -/
def geminiLoopAux (env : Env) (model : String) :
    List String → Nat → LoopState → LoopState
  | [], _, st => st
  | p :: rest, i, st => geminiLoopAux env model rest (i + 1) (geminiStep env model st i p)

/-- One call of `generateAndProcessImage` on the imagen diversify path
(src/index.tsx lines 891-925).  There is NO per-unit `try/catch` here: a
thrown backing call (and a missing placeholder) propagates and aborts the
whole run, carrying the loop state reached so far.  An empty
`response.generatedImages` is handled in place: the slot is marked failed and
`null` is returned, so the loop continues. -/
def imagenUnitStep (env : Env) (model : String) (st : LoopState) (i : Nat)
    (currentPrompt : String) : Except (String × LoopState) LoopState :=
  let calls1 := st.calls + 1
  match env.imagenUnitResponses i with
  | .error msg => .error (msg, { st with calls := calls1 })
  | .ok imgs =>
    match imgs with
    | [] =>
      if i < st.slots.length then
        .ok { st with calls := calls1,
                      slots := st.slots.set i (.failed (failMessage currentPrompt)) }
      else
        .error ("TypeError", { st with calls := calls1 })
    | imageData :: _ =>
      let calls2 := calls1 + 1
      let captionText := captionOrFallback (env.captionResponses i)
      if i < st.slots.length then
        .ok { slots := st.slots.set i
                (populateImageContainer imageData currentPrompt captionText
                  (env.lazyCaptionResponses i)),
              generated := st.generated ++ [imageData],
              saves := st.saves ++
                [{ base64 := imageData.imageBytes, prompt := currentPrompt,
                   model := model, caption := captionText }],
              calls := calls2 }
      else
        .error ("TypeError", { st with calls := calls2 })

/-- The imagen diversify loop (src/index.tsx lines 931-935). -/
def imagenLoopAux (env : Env) (model : String) :
    List String → Nat → LoopState → Except (String × LoopState) LoopState
  | [], _, st => .ok st
  | p :: rest, i, st =>
    match imagenUnitStep env model st i p with
    | .error e => .error e
    | .ok st1 => imagenLoopAux env model rest (i + 1) st1

/-- The rendering loop over the batched imagen response (src/index.tsx lines
947-967): caption each returned image, populate the placeholder at the same
index, and launch a background save.  `placeholders[i]` is used without a
guard, so an index beyond the created slots throws and aborts the run. -/
def bulkRenderAux (env : Env) (model prompt : String) :
    List Image → Nat → LoopState → Except (String × LoopState) LoopState
  | [], _, st => .ok st
  | imageData :: rest, i, st =>
    let calls := st.calls + 1
    let captionText := captionOrFallback (env.captionResponses i)
    if i < st.slots.length then
      bulkRenderAux env model prompt rest (i + 1)
        { slots := st.slots.set i
            (populateImageContainer imageData prompt captionText
              (env.lazyCaptionResponses i)),
          generated := st.generated,
          saves := st.saves ++
            [{ base64 := imageData.imageBytes, prompt := prompt, model := model,
               caption := captionText }],
          calls := calls }
    else
      .error ("TypeError", { st with calls := calls })

/-- The body of `generateImages`' `try` block (src/index.tsx lines 829-975):
model dispatch, prompt planning (the diversifier runs on the gemini path only
when `diversify && count > 1`, and on the imagen path whenever `diversify`),
and the three generation loops.  An `Except.error` is a thrown error reaching
the outer `catch`. -/
def runBody (req : Request) (env : Env) : Except (String × LoopState) LoopState :=
  let n := req.numberOfImages
  let st0 : LoopState := ⟨List.replicate n .loading, [], [], 0⟩
  if req.selectedModel == GEMINI_MODEL then
    if req.diversify && decide (1 < n) then
      match getDiversePrompts env.divBacking with
      | .error msg => .error (msg, { st0 with calls := 1 })
      | .ok plan =>
        .ok (geminiLoopAux env req.selectedModel plan 0 { st0 with calls := 1 })
    else
      .ok (geminiLoopAux env req.selectedModel (List.replicate n req.prompt) 0 st0)
  else
    if req.diversify then
      match getDiversePrompts env.divBacking with
      | .error msg => .error (msg, { st0 with calls := 1 })
      | .ok plan => imagenLoopAux env req.selectedModel plan 0 { st0 with calls := 1 }
    else
      match env.imagenBulkResponse with
      | .error msg => .error (msg, { st0 with calls := 1 })
      | .ok imgs =>
        if imgs.length > 0 then
          bulkRenderAux env req.selectedModel req.prompt imgs 0
            { st0 with generated := imgs, calls := 1 }
        else
          .ok { st0 with calls := 1,
                         slots := st0.slots.map
                           (fun _ => SlotState.failed "Failed to generate images.") }

/-- The tail of `generateImages` (src/index.tsx lines 977-996): the outer
`catch` replaces the gallery and reports the thrown message (`error.message
|| 'Could not generate images.'`); otherwise, one new history entry keyed on
`allGeneratedImages[0]` when at least one unit succeeded, or the aggregate
no-results placeholder when none did. -/
def finalizeRun (req : Request) (history0 : List HistoryItem)
    (totalGenerated0 now : Nat) (body : Except (String × LoopState) LoopState) :
    RunResult :=
  match body with
  | .error (msg, st) =>
    { outcome := .topLevelError (if msg.isEmpty then "Could not generate images." else msg),
      slots := st.slots,
      galleryReplaced := some "Image generation failed. Please check the console and try again.",
      generated := st.generated,
      history := history0,
      totalGenerated := totalGenerated0,
      saves := st.saves,
      networkCalls := st.calls,
      orchestrationStarted := true,
      downloadVisible := false }
  | .ok st =>
    match st.generated with
    | [] =>
      { outcome := .completed,
        slots := st.slots,
        galleryReplaced := some "Image generation failed to produce results. Please try a different prompt.",
        generated := [],
        history := history0,
        totalGenerated := totalGenerated0,
        saves := st.saves,
        networkCalls := st.calls,
        orchestrationStarted := true,
        downloadVisible := false }
    | first :: rest =>
      { outcome := .completed,
        slots := st.slots,
        galleryReplaced := none,
        generated := first :: rest,
        history := addToHistory now req.prompt req.selectedModel first history0,
        totalGenerated := totalGenerated0 + (first :: rest).length,
        saves := st.saves,
        networkCalls := st.calls,
        orchestrationStarted := true,
        downloadVisible := true }

/-- `generateImages` (src/index.tsx lines 804-997), end to end: the
empty-prompt early return, then the `try` body and its finalization.
`history0`/`totalGenerated0` are the ledger and running total before the run
and `now` is `Date.now()` at finalization time. -/
def generateImages (req : Request) (env : Env) (history0 : List HistoryItem)
    (totalGenerated0 now : Nat) : RunResult :=
  if req.prompt.isEmpty then
    { outcome := .validationError "Please enter a prompt.",
      slots := [], galleryReplaced := none, generated := [],
      history := history0, totalGenerated := totalGenerated0, saves := [],
      networkCalls := 0, orchestrationStarted := false, downloadVisible := false }
  else
    finalizeRun req history0 totalGenerated0 now (runBody req env)

/-- A sequence of successful runs folded over the ledger, each run recording
one entry via `addToHistory`: `(timestamp, prompt, model, thumbnail image)`
per run, executed left to right. -/
def runAll (runs : List (Nat × String × String × Image))
    (history : List HistoryItem) : List HistoryItem :=
  match runs with
  | [] => history
  | (t, p, m, img) :: rest => runAll rest (addToHistory t p m img history)

/-- Most-recent-first ordering of the ledger: every earlier entry's timestamp
is at least every later entry's. -/
def sortedDesc (l : List HistoryItem) : Prop :=
  List.Pairwise (fun a b => b.timestamp ≤ a.timestamp) l

/-- The text a part contributes to the caption under JS truthiness: `some t`
exactly when `part.text` is present and non-empty. -/
def truthyText (p : Part) : Option String :=
  match p.text with
  | some t => if t.isEmpty then none else some t
  | none => none

/-- The image bytes a part contributes under the scan's `else if`: only a part
whose text is absent or empty has its `inlineData` examined at all. -/
def imageDataOf (p : Part) : Option String :=
  match p.text with
  | some t => if t.isEmpty then p.inlineData.map Image.imageBytes else none
  | none => p.inlineData.map Image.imageBytes

/-- Comparison definition for the scan's image result: the bytes of the LAST
image-contributing part, defaulting to `dflt` when there is none. -/
def lastImageBytes (parts : List Part) (dflt : Option String) : Option String :=
  match (parts.filterMap imageDataOf).getLast? with
  | some b => some b
  | none => dflt

/-- Comparison definition for the scan's caption result: the LAST non-empty
text among the parts, defaulting to `dflt` when there is none. -/
def lastTruthyText (parts : List Part) (dflt : String) : String :=
  ((parts.filterMap truthyText).getLast?).getD dflt

/-- A fixed well-formed image used in generic theorems. -/
def goodImage : Image := { imageBytes := "IMG", mimeType := "image/png" }

/-- A response part carrying exactly one image and no text. -/
def goodPart : Part := { text := none, inlineData := some goodImage }

/-- The slot produced by a unit that succeeded with `goodImage` and no inline
caption (the caption default survives the scan). -/
def goodSlot : SlotState := SlotState.rendered goodImage "Caption not available."

/-- An environment in which every backing call throws; concrete runs override
exactly the calls they exercise. -/
def baseEnv : Env where
  geminiResponses := fun _ => .error "unreached"
  imagenUnitResponses := fun _ => .error "unreached"
  imagenBulkResponse := .error "unreached"
  divBacking := .error "unreached"
  captionResponses := fun _ => .error "unreached"
  lazyCaptionResponses := fun _ => .error "unreached"

/-- Imagen diversify run in which the generation call for unit 0 throws while
unit 1's call would succeed. -/
def c1Env : Env :=
  { baseEnv with
    divBacking := .ok (some ["p1", "p2"]),
    imagenUnitResponses := fun i =>
      if i == 0 then .error "boom" else .ok [goodImage],
    captionResponses := fun _ => .ok "cap" }

/-- Gemini run: every generation call succeeds with a single clean image, unit
`0`'s call fails; used to witness failure isolation on the gemini path. -/
def c1WitnessEnv : Env :=
  { baseEnv with
    geminiResponses := fun i =>
      if i == 0 then .error "boom" else .ok (some [goodPart]) }

/-- Diversifier returns a single prompt although two were requested; all
generation calls succeed. -/
def c2Env : Env :=
  { baseEnv with
    divBacking := .ok (some ["only"]),
    geminiResponses := fun _ => .ok (some [goodPart]) }

/-- Diversifier returns exactly two prompts; all generation calls succeed. -/
def c2WitnessEnv : Env :=
  { baseEnv with
    divBacking := .ok (some ["d1", "d2"]),
    geminiResponses := fun _ => .ok (some [goodPart]) }

/-- A gemini response with two text parts followed by two image parts. -/
def c3Env : Env :=
  { baseEnv with
    geminiResponses := fun _ => .ok (some
      [{ text := some "a", inlineData := none },
       { text := some "b", inlineData := none },
       { text := none, inlineData := some { imageBytes := "X", mimeType := "image/x" } },
       { text := none, inlineData := some { imageBytes := "Y", mimeType := "image/y" } }]) }

/-- A gemini response consisting of a single text part and no image part. -/
def c3WitnessEnv : Env :=
  { baseEnv with
    geminiResponses := fun _ => .ok (some [{ text := some "t", inlineData := none }]) }

/-- A bulk imagen response with one image and a working caption call. -/
def c4Env : Env :=
  { baseEnv with
    imagenBulkResponse := .ok [goodImage],
    captionResponses := fun _ => .ok "a fine cat" }

/-- A bulk imagen response that succeeds with zero images requested. -/
def c5Env : Env :=
  { baseEnv with imagenBulkResponse := .ok [] }

/-- A bulk imagen response with one image whose caption call then throws. -/
def c6Env : Env :=
  { baseEnv with
    imagenBulkResponse := .ok [goodImage],
    captionResponses := fun _ => .error "caption backing down" }

/-- A bulk imagen response returning two images when four were requested. -/
def c10Env : Env :=
  { baseEnv with
    imagenBulkResponse := .ok [{ imageBytes := "A", mimeType := "image/png" },
                               { imageBytes := "B", mimeType := "image/png" }],
    captionResponses := fun _ => .ok "c" }

lemma isEmpty_false_of_ne (s : String) (h : s ≠ "") : s.isEmpty = false := by
  simp only [Bool.eq_false_iff, ne_eq, String.isEmpty_iff]
  exact h

lemma empty_isEmpty : ("" : String).isEmpty = true := rfl

lemma generateImages_eq (req : Request) (env : Env) (h0 : List HistoryItem)
    (t0 now : Nat) (hp : req.prompt ≠ "") :
    generateImages req env h0 t0 now = finalizeRun req h0 t0 now (runBody req env) := by
  simp [generateImages, isEmpty_false_of_ne _ hp]

lemma finalizeRun_ok_outcome (req : Request) (h0 : List HistoryItem)
    (t0 now : Nat) (st : LoopState) :
    (finalizeRun req h0 t0 now (.ok st)).outcome = .completed := by
  cases hg : st.generated <;> simp [finalizeRun, hg]

lemma finalizeRun_ok_slots (req : Request) (h0 : List HistoryItem)
    (t0 now : Nat) (st : LoopState) :
    (finalizeRun req h0 t0 now (.ok st)).slots = st.slots := by
  cases hg : st.generated <;> simp [finalizeRun, hg]

lemma finalizeRun_ok_generated (req : Request) (h0 : List HistoryItem)
    (t0 now : Nat) (st : LoopState) :
    (finalizeRun req h0 t0 now (.ok st)).generated = st.generated := by
  cases hg : st.generated <;> simp [finalizeRun, hg]

lemma finalizeRun_ok_saves (req : Request) (h0 : List HistoryItem)
    (t0 now : Nat) (st : LoopState) :
    (finalizeRun req h0 t0 now (.ok st)).saves = st.saves := by
  cases hg : st.generated <;> simp [finalizeRun, hg]

lemma finalizeRun_started (req : Request) (h0 : List HistoryItem)
    (t0 now : Nat) (b : Except (String × LoopState) LoopState) :
    (finalizeRun req h0 t0 now b).orchestrationStarted = true := by
  rcases b with ⟨msg, st⟩ | st
  · simp [finalizeRun]
  · cases hg : st.generated <;> simp [finalizeRun, hg]

lemma runBody_gemini_plain (env : Env) (prompt : String) (n : Nat) :
    runBody ⟨prompt, n, GEMINI_MODEL, false⟩ env =
      .ok (geminiLoopAux env GEMINI_MODEL (List.replicate n prompt) 0
        ⟨List.replicate n .loading, [], [], 0⟩) := by
  simp [runBody]

/-- Claim C9: a run whose base prompt is empty fails immediately with the
validation error, makes zero network calls, and enters no later orchestration
state — every observable component of the result is untouched, for every
count, model selection and diversify flag. -/
theorem claim_C9_empty_prompt (req : Request) (env : Env) (h0 : List HistoryItem)
    (t0 now : Nat) (hp : req.prompt = "") :
    generateImages req env h0 t0 now =
      { outcome := .validationError "Please enter a prompt.",
        slots := [], galleryReplaced := none, generated := [],
        history := h0, totalGenerated := t0, saves := [],
        networkCalls := 0, orchestrationStarted := false,
        downloadVisible := false } := by
  simp [generateImages, hp, empty_isEmpty]

/-- Witness for C9 at a concrete request. -/
theorem claim_C9_empty_prompt_witness :
    generateImages ⟨"", 4, "imagen-4.0-generate-001", true⟩ baseEnv [] 3 7 =
      { outcome := .validationError "Please enter a prompt.",
        slots := [], galleryReplaced := none, generated := [],
        history := [], totalGenerated := 3, saves := [],
        networkCalls := 0, orchestrationStarted := false,
        downloadVisible := false } :=
  claim_C9_empty_prompt ⟨"", 4, "imagen-4.0-generate-001", true⟩ baseEnv [] 3 7 rfl

/-- Claim C5, counterexample: the request `{basePrompt := "a cat", count := 0}`
violates the `count ≥ 1` invariant, yet it is NOT rejected before
orchestration: the gallery is cleared, orchestration starts, and the batched
backing generation call is issued (one network call). -/
theorem claim_C5_counterexample :
    (generateImages ⟨"a cat", 0, "imagen-4.0-generate-001", false⟩ c5Env [] 0 0).orchestrationStarted
        = true ∧
    (generateImages ⟨"a cat", 0, "imagen-4.0-generate-001", false⟩ c5Env [] 0 0).networkCalls = 1 ∧
    (generateImages ⟨"a cat", 0, "imagen-4.0-generate-001", false⟩ c5Env [] 0 0).outcome
        = .completed := by
  decide

/-- Claim C5, amended: only the basePrompt-non-empty half of the invariant is
validated before orchestration starts; the count is never validated, so every
request with a non-empty prompt — whatever its count, including 0 — proceeds
into orchestration. -/
theorem claim_C5_amended (req : Request) (env : Env) (h0 : List HistoryItem)
    (t0 now : Nat) :
    (req.prompt = "" →
      (generateImages req env h0 t0 now).outcome = .validationError "Please enter a prompt." ∧
      (generateImages req env h0 t0 now).orchestrationStarted = false) ∧
    (req.prompt ≠ "" →
      (generateImages req env h0 t0 now).orchestrationStarted = true) := by
  constructor
  · intro hp
    simp [generateImages, hp, empty_isEmpty]
  · intro hp
    rw [generateImages_eq req env h0 t0 now hp]
    exact finalizeRun_started _ _ _ _ _

/-- Witness for C5's amended claim: a count-0 request with a non-empty prompt
enters orchestration. -/
theorem claim_C5_amended_witness :
    (generateImages ⟨"a cat", 0, "imagen-4.0-generate-001", false⟩ c5Env [] 0 0).orchestrationStarted
      = true :=
  (claim_C5_amended ⟨"a cat", 0, "imagen-4.0-generate-001", false⟩ c5Env [] 0 0).2
    (by simp)

/-- Claim C7: `getImageMetadata` never fails outward — whenever the backing
call throws or its text is not valid JSON, it returns the deterministic
fallback: the first 50 characters of the prompt as title, category `"Other"`. -/
theorem claim_C7_classifier_fallback (prompt : String)
    (backing : Except String (Option Metadata))
    (h : (∃ e, backing = .error e) ∨ backing = .ok none) :
    getImageMetadata prompt backing = { title := prompt.take 50, category := "Other" } := by
  rcases h with ⟨e, he⟩ | he <;> subst he <;> rfl

set_option maxRecDepth 4096 in
/-- Witness for C7 on a 59-character prompt and a throwing backing call: the
fallback title is the prompt's first 50 characters. -/
theorem claim_C7_classifier_fallback_witness :
    getImageMetadata
        "a very long prompt describing a scene in exhaustive detail!"
        (.error "network down") =
      { title := "a very long prompt describing a scene in exhaustiv",
        category := "Other" } := by
  have h := claim_C7_classifier_fallback
    "a very long prompt describing a scene in exhaustive detail!"
    (.error "network down") (Or.inl ⟨"network down", rfl⟩)
  rw [h]
  decide

/-- Claim C4: whenever a run reaches Finalizing (it completes without a
top-level error), a history entry is appended iff at least one unit succeeded;
the appended entry's thumbnail is the first successful unit's image bytes, and
when zero units succeeded the ledger is untouched and the aggregate failure
placeholder is shown instead. -/
theorem claim_C4_finalizing (req : Request) (env : Env) (h0 : List HistoryItem)
    (t0 now : Nat)
    (hc : (generateImages req env h0 t0 now).outcome = .completed) :
    ((generateImages req env h0 t0 now).generated = [] →
      (generateImages req env h0 t0 now).history = h0 ∧
      (generateImages req env h0 t0 now).galleryReplaced =
        some "Image generation failed to produce results. Please try a different prompt." ∧
      (generateImages req env h0 t0 now).downloadVisible = false) ∧
    (∀ first rest, (generateImages req env h0 t0 now).generated = first :: rest →
      (generateImages req env h0 t0 now).history =
        { id := now, prompt := req.prompt, model := req.selectedModel,
          thumbnail := first.imageBytes, timestamp := now } :: h0 ∧
      (generateImages req env h0 t0 now).downloadVisible = true) := by
  by_cases hp : req.prompt = ""
  · rw [claim_C9_empty_prompt req env h0 t0 now hp] at hc
    simp at hc
  · rw [generateImages_eq req env h0 t0 now hp] at hc ⊢
    rcases hb : runBody req env with ⟨msg, st⟩ | st
    · rw [hb] at hc
      simp [finalizeRun] at hc
    · cases hg : st.generated with
      | nil =>
        constructor
        · intro _
          simp [finalizeRun, hg]
        · intro first rest hfr
          rw [finalizeRun_ok_generated, hg] at hfr
          exact absurd hfr (by simp)
      | cons a l =>
        constructor
        · intro hnil
          rw [finalizeRun_ok_generated, hg] at hnil
          exact absurd hnil (by simp)
        · intro first rest hfr
          rw [finalizeRun_ok_generated, hg] at hfr
          injection hfr with h1 h2
          subst h1; subst h2
          simp [finalizeRun, hg, addToHistory]

/-- Witness for C4: a completed bulk run with one successful unit appends
exactly one entry whose thumbnail is that unit's image bytes. -/
theorem claim_C4_finalizing_witness :
    (generateImages ⟨"a cat", 1, "imagen-4.0-generate-001", false⟩ c4Env [] 0 9).outcome
        = .completed ∧
    (generateImages ⟨"a cat", 1, "imagen-4.0-generate-001", false⟩ c4Env [] 0 9).history =
      [{ id := 9, prompt := "a cat", model := "imagen-4.0-generate-001",
         thumbnail := "IMG", timestamp := 9 }] := by
  have hc : (generateImages ⟨"a cat", 1, "imagen-4.0-generate-001", false⟩ c4Env [] 0 9).outcome
      = .completed := by decide
  have h := (claim_C4_finalizing ⟨"a cat", 1, "imagen-4.0-generate-001", false⟩ c4Env [] 0 9 hc).2
    goodImage [] (by decide)
  exact ⟨hc, by rw [h.1]; decide⟩

lemma runAll_sorted_suffix (runs : List (Nat × String × String × Image)) :
    ∀ h0 : List HistoryItem, sortedDesc h0 →
      List.Pairwise (fun a b => a.1 ≤ b.1) runs →
      (∀ e ∈ h0, ∀ r ∈ runs, e.timestamp ≤ r.1) →
      sortedDesc (runAll runs h0) ∧ h0 <:+ runAll runs h0 := by
  induction runs with
  | nil =>
    intro h0 hs _ _
    exact ⟨hs, List.suffix_refl h0⟩
  | cons r rest ih =>
    obtain ⟨t, p, m, img⟩ := r
    intro h0 hs hc hb
    have hhead := (List.pairwise_cons.mp hc).1
    have hc1 := (List.pairwise_cons.mp hc).2
    have hs1 : sortedDesc (addToHistory t p m img h0) := by
      refine List.pairwise_cons.mpr ⟨?_, hs⟩
      intro e he
      exact hb e he (t, p, m, img) (List.mem_cons_self _ _)
    have hb1 : ∀ e ∈ addToHistory t p m img h0, ∀ r2 ∈ rest, e.timestamp ≤ r2.1 := by
      intro e he r2 hr2
      rcases List.mem_cons.mp he with he | he
      · subst he
        exact hhead r2 hr2
      · exact hb e he r2 (List.mem_cons_of_mem _ hr2)
    obtain ⟨ha, hsuf⟩ := ih (addToHistory t p m img h0) hs1 hc1 hb1
    exact ⟨ha, (List.suffix_cons _ h0).trans hsuf⟩

/-- Claim C8: `addToHistory` prepends the new `Date.now()`-stamped entry and
the full ledger is persisted as-is; under a normal (non-decreasing) clock,
any number of successful runs keeps the ledger in non-increasing timestamp
order, leaves every earlier entry unchanged in place (the old ledger is a
suffix of the new one), and a save/load round trip returns the ledger
verbatim. -/
theorem claim_C8_ledger (runs : List (Nat × String × String × Image))
    (h0 : List HistoryItem) (hsorted : sortedDesc h0)
    (hclock : List.Pairwise (fun a b => a.1 ≤ b.1) runs)
    (hbase : ∀ e ∈ h0, ∀ r ∈ runs, e.timestamp ≤ r.1) :
    sortedDesc (runAll runs h0) ∧
    h0 <:+ runAll runs h0 ∧
    loadHistory (.ok (saveHistory (runAll runs h0))) = runAll runs h0 ∧
    (∀ t p m img h, addToHistory t p m img h =
      { id := t, prompt := p, model := m, thumbnail := img.imageBytes, timestamp := t } :: h) := by
  obtain ⟨ha, hsuf⟩ := runAll_sorted_suffix runs h0 hsorted hclock hbase
  exact ⟨ha, hsuf, rfl, fun t p m img h => rfl⟩

/-- Witness for C8: two successful runs at times 5 and 9 from an empty
ledger. -/
theorem claim_C8_ledger_witness :
    sortedDesc (runAll [(5, "a", "m", ⟨"A", "png"⟩), (9, "b", "m", ⟨"B", "png"⟩)] []) ∧
    ([] : List HistoryItem) <:+
      runAll [(5, "a", "m", ⟨"A", "png"⟩), (9, "b", "m", ⟨"B", "png"⟩)] [] ∧
    loadHistory (.ok (saveHistory
        (runAll [(5, "a", "m", ⟨"A", "png"⟩), (9, "b", "m", ⟨"B", "png"⟩)] []))) =
      runAll [(5, "a", "m", ⟨"A", "png"⟩), (9, "b", "m", ⟨"B", "png"⟩)] [] ∧
    (∀ t p m img h, addToHistory t p m img h =
      { id := t, prompt := p, model := m, thumbnail := img.imageBytes, timestamp := t } :: h) :=
  claim_C8_ledger [(5, "a", "m", ⟨"A", "png"⟩), (9, "b", "m", ⟨"B", "png"⟩)] []
    (by constructor) (by decide) (by simp)

lemma populate_notavail (img : Image) (p : String) (lz : Except String String) :
    populateImageContainer img p "Caption not available." lz =
      SlotState.rendered img "Caption not available." := rfl

lemma geminiStep_good (env : Env) (model : String) (st : LoopState) (i : Nat) (p : String)
    (h : env.geminiResponses i = .ok (some [goodPart])) (hi : i < st.slots.length) :
    geminiStep env model st i p =
      { slots := st.slots.set i goodSlot,
        generated := st.generated ++ [goodImage],
        saves := st.saves ++ [{ base64 := "IMG", prompt := p, model := model,
                                caption := "Caption not available." }],
        calls := st.calls + 1 } := by
  have hscan : scanParts [goodPart] none "Caption not available." =
      (some "IMG", "Caption not available.") := rfl
  have hmime : firstImageMime [goodPart] = "image/png" := rfl
  simp only [geminiStep, h, Option.getD, hscan, hmime, hi, if_true, populate_notavail]
  simp [goodSlot, goodImage, hi]

lemma geminiStep_bad (env : Env) (model : String) (st : LoopState) (i : Nat) (p e : String)
    (h : env.geminiResponses i = .error e) :
    geminiStep env model st i p =
      { st with calls := st.calls + 1,
                slots := st.slots.set i (.failed (failMessage p)) } := by
  simp [geminiStep, h]

lemma geminiLoopAux_allGood (env : Env) (model : String) (plan : List String) :
    ∀ (i : Nat) (st : LoopState),
      (∀ j, i ≤ j → j < i + plan.length → env.geminiResponses j = .ok (some [goodPart])) →
      i + plan.length ≤ st.slots.length →
      (geminiLoopAux env model plan i st).slots.length = st.slots.length ∧
      (geminiLoopAux env model plan i st).generated.length
        = st.generated.length + plan.length ∧
      (geminiLoopAux env model plan i st).saves.map SaveRecord.prompt
        = st.saves.map SaveRecord.prompt ++ plan ∧
      (∀ j, i ≤ j → j < i + plan.length →
        (geminiLoopAux env model plan i st).slots[j]? = some goodSlot) ∧
      (∀ j, j < i → (geminiLoopAux env model plan i st).slots[j]? = st.slots[j]?) := by
  induction plan with
  | nil =>
    intro i st _ _
    refine ⟨rfl, by simp [geminiLoopAux], by simp [geminiLoopAux], ?_, fun j _ => rfl⟩
    intro j h1 h2
    simp only [List.length_nil, Nat.add_zero] at h2
    omega
  | cons p rest ih =>
    intro i st hgood hlen
    have hi : i < st.slots.length := by
      simp only [List.length_cons] at hlen
      omega
    have hstep := geminiStep_good env model st i p
      (hgood i (Nat.le_refl i) (by simp only [List.length_cons]; omega)) hi
    have hrw : geminiLoopAux env model (p :: rest) i st
        = geminiLoopAux env model rest (i + 1) (geminiStep env model st i p) := rfl
    set st1 := geminiStep env model st i p with hst1
    have h1len : st1.slots.length = st.slots.length := by
      rw [hstep]
      simp
    obtain ⟨ia, ib, ic, id2, ie⟩ := ih (i + 1) st1
      (fun j hj1 hj2 => hgood j (by omega) (by simp only [List.length_cons]; omega))
      (by simp only [List.length_cons] at hlen; omega)
    rw [hrw]
    refine ⟨by rw [ia, h1len], ?_, ?_, ?_, ?_⟩
    · rw [ib, hstep]
      simp only [List.length_cons, List.length_append, List.length_nil]
      omega
    · rw [ic, hstep]
      simp
    · intro j hj1 hj2
      by_cases hj : j = i
      · have he : (geminiLoopAux env model rest (i + 1) st1).slots[j]? = st1.slots[j]? :=
          ie j (by omega)
        rw [he, hj, hstep]
        simp [List.getElem?_set_self', hi]
      · exact id2 j (by omega) (by simp only [List.length_cons] at hj2 ⊢; omega)
    · intro j hj
      have he : (geminiLoopAux env model rest (i + 1) st1).slots[j]? = st1.slots[j]? :=
        ie j (by omega)
      rw [he, hstep]
      exact List.getElem?_set_ne (by omega)

lemma geminiLoopAux_oneFail (env : Env) (model : String) (k : Nat) (prompt : String)
    (hbad : env.geminiResponses k = .error "boom")
    (hgood : ∀ j, j ≠ k → env.geminiResponses j = .ok (some [goodPart])) :
    ∀ (m i : Nat) (st : LoopState),
      i + m ≤ st.slots.length →
      (geminiLoopAux env model (List.replicate m prompt) i st).slots.length
        = st.slots.length ∧
      (geminiLoopAux env model (List.replicate m prompt) i st).generated.length
        + (if i ≤ k ∧ k < i + m then 1 else 0) = st.generated.length + m ∧
      (∀ j, i ≤ j → j < i + m → j ≠ k →
        (geminiLoopAux env model (List.replicate m prompt) i st).slots[j]? = some goodSlot) ∧
      (i ≤ k → k < i + m →
        (geminiLoopAux env model (List.replicate m prompt) i st).slots[k]? =
          some (.failed (failMessage prompt))) ∧
      (∀ j, j < i →
        (geminiLoopAux env model (List.replicate m prompt) i st).slots[j]? = st.slots[j]?) := by
  intro m
  induction m with
  | zero =>
    intro i st _
    have hz : geminiLoopAux env model (List.replicate 0 prompt) i st = st := rfl
    refine ⟨by rw [hz], ?_, ?_, ?_, fun j _ => by rw [hz]⟩
    · rw [hz]
      split_ifs <;> omega
    · intro j h1 h2 _
      omega
    · intro h1 h2
      omega
  | succ m ih =>
    intro i st hlen
    have hi : i < st.slots.length := by omega
    rw [List.replicate_succ]
    have hrw : geminiLoopAux env model (prompt :: List.replicate m prompt) i st
        = geminiLoopAux env model (List.replicate m prompt) (i + 1)
            (geminiStep env model st i prompt) := rfl
    rw [hrw]
    by_cases hik : i = k
    · have hstep := geminiStep_bad env model st i prompt "boom" (by rw [hik]; exact hbad)
      set st1 := geminiStep env model st i prompt with hst1
      have h1len : st1.slots.length = st.slots.length := by
        rw [hstep]
        simp
      obtain ⟨ia, ib, ic, id2, ie⟩ := ih (i + 1) st1 (by omega)
      have h1gen : st1.generated = st.generated := by rw [hstep]
      refine ⟨by rw [ia, h1len], ?_, ?_, ?_, ?_⟩
      · rw [h1gen] at ib
        split_ifs at ib ⊢ <;> omega
      · intro j hj1 hj2 hjk
        exact ic j (by omega) (by omega) hjk
      · intro _ _
        have he : (geminiLoopAux env model (List.replicate m prompt) (i + 1) st1).slots[k]?
            = st1.slots[k]? := ie k (by omega)
        rw [he, hstep]
        rw [← hik]
        simp [List.getElem?_set_self', hi]
      · intro j hj
        have he : (geminiLoopAux env model (List.replicate m prompt) (i + 1) st1).slots[j]?
            = st1.slots[j]? := ie j (by omega)
        rw [he, hstep]
        exact List.getElem?_set_ne (by omega)
    · have hstep := geminiStep_good env model st i prompt (hgood i hik) hi
      set st1 := geminiStep env model st i prompt with hst1
      have h1len : st1.slots.length = st.slots.length := by
        rw [hstep]
        simp
      obtain ⟨ia, ib, ic, id2, ie⟩ := ih (i + 1) st1 (by omega)
      have h1gen : st1.generated.length = st.generated.length + 1 := by
        rw [hstep]
        simp
      refine ⟨by rw [ia, h1len], ?_, ?_, ?_, ?_⟩
      · rw [h1gen] at ib
        split_ifs at ib ⊢ <;> omega
      · intro j hj1 hj2 hjk
        by_cases hj : j = i
        · have he : (geminiLoopAux env model (List.replicate m prompt) (i + 1) st1).slots[j]?
              = st1.slots[j]? := ie j (by omega)
          rw [he, hj, hstep]
          simp [List.getElem?_set_self', hi]
        · exact ic j (by omega) (by omega) hjk
      · intro hk1 hk2
        exact id2 (by omega) (by omega)
      · intro j hj
        have he : (geminiLoopAux env model (List.replicate m prompt) (i + 1) st1).slots[j]?
            = st1.slots[j]? := ie j (by omega)
        rw [he, hstep]
        exact List.getElem?_set_ne (by omega)

/-- Claim C1, counterexample: on the BulkImageModel (imagen) path with
diversify, `generateAndProcessImage` runs WITHOUT a per-unit try/catch, so a
thrown generation call at index 0 of 2 aborts the entire run: the outcome is a
top-level error, zero units succeed (not n−1 = 1), unit 1's slot never leaves
the loading state, and no history entry is recorded. -/
theorem claim_C1_counterexample :
    (generateImages ⟨"x", 2, "imagen-4.0-generate-001", true⟩ c1Env [] 0 5).outcome
        = .topLevelError "boom" ∧
    (generateImages ⟨"x", 2, "imagen-4.0-generate-001", true⟩ c1Env [] 0 5).generated = [] ∧
    (generateImages ⟨"x", 2, "imagen-4.0-generate-001", true⟩ c1Env [] 0 5).slots
        = [.loading, .loading] ∧
    (generateImages ⟨"x", 2, "imagen-4.0-generate-001", true⟩ c1Env [] 0 5).history = [] := by
  decide

/-- Claim C1, amended: on the SequentialMultimodalModel (gemini) path, a
failing generation call at index k of n > 1 marks only that unit failed and
every other unit still completes — the run finishes with success count n − 1,
slot k carrying the inline failure message and all other slots rendered. -/
theorem claim_C1_amended (n k : Nat) (prompt : String) (env : Env)
    (h0 : List HistoryItem) (t0 now : Nat)
    (hn : 1 < n) (hk : k < n) (hp : prompt ≠ "")
    (hbad : env.geminiResponses k = .error "boom")
    (hgood : ∀ j, j ≠ k → env.geminiResponses j = .ok (some [goodPart])) :
    (generateImages ⟨prompt, n, GEMINI_MODEL, false⟩ env h0 t0 now).outcome = .completed ∧
    (generateImages ⟨prompt, n, GEMINI_MODEL, false⟩ env h0 t0 now).generated.length = n - 1 ∧
    (generateImages ⟨prompt, n, GEMINI_MODEL, false⟩ env h0 t0 now).slots.length = n ∧
    (generateImages ⟨prompt, n, GEMINI_MODEL, false⟩ env h0 t0 now).slots[k]?
        = some (.failed (failMessage prompt)) ∧
    (∀ j, j < n → j ≠ k →
      (generateImages ⟨prompt, n, GEMINI_MODEL, false⟩ env h0 t0 now).slots[j]?
        = some goodSlot) := by
  obtain ⟨ha, hb, hc, hd, _⟩ := geminiLoopAux_oneFail env GEMINI_MODEL k prompt hbad hgood n 0
    ⟨List.replicate n .loading, [], [], 0⟩ (by simp)
  have hgen : generateImages ⟨prompt, n, GEMINI_MODEL, false⟩ env h0 t0 now
      = finalizeRun ⟨prompt, n, GEMINI_MODEL, false⟩ h0 t0 now
          (.ok (geminiLoopAux env GEMINI_MODEL (List.replicate n prompt) 0
            ⟨List.replicate n .loading, [], [], 0⟩)) := by
    rw [generateImages_eq _ _ _ _ _ hp, runBody_gemini_plain]
  rw [hgen, finalizeRun_ok_outcome, finalizeRun_ok_slots, finalizeRun_ok_generated]
  refine ⟨rfl, ?_, ?_, ?_, ?_⟩
  · simp only [List.length_nil, Nat.zero_add] at hb
    split_ifs at hb <;> omega
  · rw [ha]
    simp
  · exact hd (by omega) (by omega)
  · intro j hj hjk
    exact hc j (by omega) (by omega) hjk

/-- Witness for C1's amended claim: two gemini units, unit 0's call fails,
unit 1 succeeds, final success count 1. -/
theorem claim_C1_amended_witness :
    (generateImages ⟨"p", 2, GEMINI_MODEL, false⟩ c1WitnessEnv [] 0 3).outcome = .completed ∧
    (generateImages ⟨"p", 2, GEMINI_MODEL, false⟩ c1WitnessEnv [] 0 3).generated.length = 1 ∧
    (generateImages ⟨"p", 2, GEMINI_MODEL, false⟩ c1WitnessEnv [] 0 3).slots[0]?
        = some (.failed (failMessage "p")) ∧
    (generateImages ⟨"p", 2, GEMINI_MODEL, false⟩ c1WitnessEnv [] 0 3).slots[1]?
        = some goodSlot := by
  have h := claim_C1_amended 2 0 "p" c1WitnessEnv [] 0 3 (by decide) (by decide) (by simp)
    rfl (fun j hj => by simp [c1WitnessEnv, baseEnv, hj])
  exact ⟨h.1, h.2.1, h.2.2.2.1, h.2.2.2.2 1 (by decide) (by decide)⟩

lemma runBody_gemini_div_err (env : Env) (prompt : String) (n : Nat) (msg : String)
    (hn : 1 < n) (he : getDiversePrompts env.divBacking = .error msg) :
    runBody ⟨prompt, n, GEMINI_MODEL, true⟩ env =
      .error (msg, ⟨List.replicate n .loading, [], [], 1⟩) := by
  simp [runBody, hn, he]

lemma runBody_gemini_div_ok (env : Env) (prompt : String) (n : Nat) (plan : List String)
    (hn : 1 < n) (he : getDiversePrompts env.divBacking = .ok plan) :
    runBody ⟨prompt, n, GEMINI_MODEL, true⟩ env =
      .ok (geminiLoopAux env GEMINI_MODEL plan 0 ⟨List.replicate n .loading, [], [], 1⟩) := by
  simp [runBody, hn, he]

/-- Claim C2, counterexample: with diversify=true and count = 2, the
diversifier's backing call returns a single prompt (length 1 ≠ 2), yet the
run does NOT abort: it completes, creates one GeneratedUnit from that prompt,
and leaves the second placeholder loading.  The source only checks
`length > 0`, never `length == count`, and never checks string emptiness. -/
theorem claim_C2_counterexample :
    (generateImages ⟨"x", 2, GEMINI_MODEL, true⟩ c2Env [] 0 5).outcome = .completed ∧
    (generateImages ⟨"x", 2, GEMINI_MODEL, true⟩ c2Env [] 0 5).generated.length = 1 ∧
    (generateImages ⟨"x", 2, GEMINI_MODEL, true⟩ c2Env [] 0 5).slots
        = [goodSlot, .loading] ∧
    (generateImages ⟨"x", 2, GEMINI_MODEL, true⟩ c2Env [] 0 5).saves.map SaveRecord.prompt
        = ["only"] := by
  decide

/-- Claim C2, amended: the run aborts with the diversification error only when
the backing call throws, its output is malformed, or the prompt list is empty
(`getDiversePrompts` succeeds exactly on a non-empty parsed list); aborting
creates zero GeneratedUnits and leaves the ledger untouched.  Any non-empty
list — whatever its length relative to count — is accepted, and generation
then uses all of its strings in order. -/
theorem claim_C2_amended :
    (∀ backing : Except String (Option (List String)),
      (∃ l, getDiversePrompts backing = .ok l) ↔
        (∃ l, backing = .ok (some l) ∧ l ≠ [])) ∧
    (∀ l : List String, l ≠ [] → getDiversePrompts (.ok (some l)) = .ok l) ∧
    (∀ (n : Nat) (prompt : String) (env : Env) (h0 : List HistoryItem) (t0 now : Nat)
        (msg : String), 1 < n → prompt ≠ "" → msg ≠ "" → env.divBacking = .error msg →
      (generateImages ⟨prompt, n, GEMINI_MODEL, true⟩ env h0 t0 now).outcome
          = .topLevelError msg ∧
      (generateImages ⟨prompt, n, GEMINI_MODEL, true⟩ env h0 t0 now).generated = [] ∧
      (generateImages ⟨prompt, n, GEMINI_MODEL, true⟩ env h0 t0 now).saves = [] ∧
      (generateImages ⟨prompt, n, GEMINI_MODEL, true⟩ env h0 t0 now).history = h0) ∧
    (∀ (n : Nat) (prompt : String) (env : Env) (h0 : List HistoryItem) (t0 now : Nat),
        1 < n → prompt ≠ "" → env.divBacking = .ok (some []) →
      (generateImages ⟨prompt, n, GEMINI_MODEL, true⟩ env h0 t0 now).outcome
          = .topLevelError "Failed to generate a valid set of diverse prompts." ∧
      (generateImages ⟨prompt, n, GEMINI_MODEL, true⟩ env h0 t0 now).generated = [] ∧
      (generateImages ⟨prompt, n, GEMINI_MODEL, true⟩ env h0 t0 now).history = h0) ∧
    (∀ (n : Nat) (prompt : String) (l : List String) (env : Env) (h0 : List HistoryItem)
        (t0 now : Nat), 1 < n → prompt ≠ "" → l ≠ [] → l.length ≤ n →
        env.divBacking = .ok (some l) →
        (∀ j, env.geminiResponses j = .ok (some [goodPart])) →
      (generateImages ⟨prompt, n, GEMINI_MODEL, true⟩ env h0 t0 now).outcome = .completed ∧
      (generateImages ⟨prompt, n, GEMINI_MODEL, true⟩ env h0 t0 now).generated.length
          = l.length ∧
      (generateImages ⟨prompt, n, GEMINI_MODEL, true⟩ env h0 t0 now).saves.map
          SaveRecord.prompt = l) := by
  refine ⟨?_, ?_, ?_, ?_, ?_⟩
  · intro backing
    rcases backing with e | o
    · simp [getDiversePrompts]
    · rcases o with _ | l
      · simp [getDiversePrompts]
      · rcases l with _ | ⟨a, l⟩
        · simp [getDiversePrompts]
        · simp [getDiversePrompts]
  · intro l hl
    rcases l with _ | ⟨a, l⟩
    · exact absurd rfl hl
    · simp [getDiversePrompts]
  · intro n prompt env h0 t0 now msg hn hp hmsg he
    have hd : getDiversePrompts env.divBacking = .error msg := by
      rw [he]
      rfl
    rw [generateImages_eq _ _ _ _ _ hp, runBody_gemini_div_err env prompt n msg hn hd]
    simp [finalizeRun, isEmpty_false_of_ne msg hmsg]
  · intro n prompt env h0 t0 now hn hp he
    have hd : getDiversePrompts env.divBacking
        = .error "Failed to generate a valid set of diverse prompts." := by
      rw [he]
      rfl
    rw [generateImages_eq _ _ _ _ _ hp, runBody_gemini_div_err env prompt n _ hn hd]
    have hne : ("Failed to generate a valid set of diverse prompts." : String).isEmpty
        = false := rfl
    simp [finalizeRun, hne]
  · intro n prompt l env h0 t0 now hn hp hl hlen he hgood
    have hd : getDiversePrompts env.divBacking = .ok l := by
      rw [he]
      rcases l with _ | ⟨a, l⟩
      · exact absurd rfl hl
      · simp [getDiversePrompts]
    rw [generateImages_eq _ _ _ _ _ hp, runBody_gemini_div_ok env prompt n l hn hd]
    obtain ⟨ha, hb, hc, _, _⟩ := geminiLoopAux_allGood env GEMINI_MODEL l 0
      ⟨List.replicate n .loading, [], [], 1⟩
      (fun j _ _ => hgood j) (by simpa using hlen)
    rw [finalizeRun_ok_outcome, finalizeRun_ok_generated, finalizeRun_ok_saves]
    refine ⟨rfl, ?_, ?_⟩
    · rw [hb]
      simp
    · rw [hc]
      simp

/-- Witness for C2's amended claim: the diversifier returns exactly two
prompts for count 2 and both are used in order. -/
theorem claim_C2_amended_witness :
    (generateImages ⟨"city", 2, GEMINI_MODEL, true⟩ c2WitnessEnv [] 0 4).outcome
        = .completed ∧
    (generateImages ⟨"city", 2, GEMINI_MODEL, true⟩ c2WitnessEnv [] 0 4).generated.length = 2 ∧
    (generateImages ⟨"city", 2, GEMINI_MODEL, true⟩ c2WitnessEnv [] 0 4).saves.map
        SaveRecord.prompt = ["d1", "d2"] := by
  have h := (claim_C2_amended).2.2.2.2 2 "city" ["d1", "d2"] c2WitnessEnv [] 0 4
    (by decide) (by simp) (by simp) (by decide) rfl (fun j => rfl)
  exact ⟨h.1, h.2.1, h.2.2⟩

lemma lastTruthyText_cons_truthy (t : String) (ht : t.isEmpty = false) (p : Part)
    (hp : p.text = some t) (rest : List Part) (dflt : String) :
    lastTruthyText (p :: rest) dflt = lastTruthyText rest t := by
  unfold lastTruthyText
  have h1 : truthyText p = some t := by
    simp [truthyText, hp, ht]
  simp only [List.filterMap_cons, h1, List.getLast?_cons]
  rcases h2 : (rest.filterMap truthyText).getLast? with _ | b <;> simp [h2]

lemma lastImageBytes_cons_none (p : Part) (hp : imageDataOf p = none)
    (rest : List Part) (dflt : Option String) :
    lastImageBytes (p :: rest) dflt = lastImageBytes rest dflt := by
  unfold lastImageBytes
  simp only [List.filterMap_cons, hp]

lemma lastImageBytes_cons_some (p : Part) (b : String) (hp : imageDataOf p = some b)
    (rest : List Part) (dflt : Option String) :
    lastImageBytes (p :: rest) dflt = lastImageBytes rest (some b) := by
  unfold lastImageBytes
  simp only [List.filterMap_cons, hp, List.getLast?_cons]
  rcases h2 : (rest.filterMap imageDataOf).getLast? with _ | c <;> simp [h2]

lemma lastTruthyText_cons_skip (p : Part) (hp : truthyText p = none)
    (rest : List Part) (dflt : String) :
    lastTruthyText (p :: rest) dflt = lastTruthyText rest dflt := by
  unfold lastTruthyText
  simp only [List.filterMap_cons, hp]

lemma scanParts_eq (parts : List Part) :
    ∀ (img : Option String) (cap : String),
      scanParts parts img cap = (lastImageBytes parts img, lastTruthyText parts cap) := by
  induction parts with
  | nil =>
    intro img cap
    rfl
  | cons p rest ih =>
    intro img cap
    rcases hpt : p.text with _ | t
    · rcases hpd : p.inlineData with _ | d
      · rw [show scanParts (p :: rest) img cap = scanParts rest img cap by
          simp [scanParts, hpt, hpd]]
        rw [ih, lastImageBytes_cons_none p (by simp [imageDataOf, hpt, hpd]),
          lastTruthyText_cons_skip p (by simp [truthyText, hpt])]
      · rw [show scanParts (p :: rest) img cap = scanParts rest (some d.imageBytes) cap by
          simp [scanParts, hpt, hpd]]
        rw [ih, lastImageBytes_cons_some p d.imageBytes (by simp [imageDataOf, hpt, hpd]),
          lastTruthyText_cons_skip p (by simp [truthyText, hpt])]
    · rcases ht : t.isEmpty with _ | _
      · -- isEmpty = false: the part's text is truthy, it sets the caption
        rw [show scanParts (p :: rest) img cap = scanParts rest img t by
          simp [scanParts, hpt, ht]]
        rw [ih, lastImageBytes_cons_none p (by simp [imageDataOf, hpt, ht]),
          lastTruthyText_cons_truthy t ht p hpt]
      · -- isEmpty = true: falsy text, the part behaves like a text-free part
        rcases hpd : p.inlineData with _ | d
        · rw [show scanParts (p :: rest) img cap = scanParts rest img cap by
            simp [scanParts, hpt, ht, hpd]]
          rw [ih, lastImageBytes_cons_none p (by simp [imageDataOf, hpt, ht, hpd]),
            lastTruthyText_cons_skip p (by simp [truthyText, hpt, ht])]
        · rw [show scanParts (p :: rest) img cap = scanParts rest (some d.imageBytes) cap by
            simp [scanParts, hpt, ht, hpd]]
          rw [ih, lastImageBytes_cons_some p d.imageBytes (by simp [imageDataOf, hpt, ht, hpd]),
            lastTruthyText_cons_skip p (by simp [truthyText, hpt, ht])]


/-- Claim C3, counterexample: for a response with parts
[text "a", text "b", image X, image Y], the scan renders the LAST image part's
bytes ("Y") with the LAST text part as caption ("b") — and the declared mime
type comes from the FIRST image part ("image/x") — not the first image part
and first text part as the claim states. -/
theorem claim_C3_counterexample :
    (generateImages ⟨"x", 1, GEMINI_MODEL, false⟩ c3Env [] 0 0).slots
        = [.rendered ⟨"Y", "image/x"⟩ "b"] ∧
    (generateImages ⟨"x", 1, GEMINI_MODEL, false⟩ c3Env [] 0 0).slots
        ≠ [.rendered ⟨"X", "image/x"⟩ "a"] := by
  decide

/-- Claim C3, amended: the gemini path scans all returned parts but keeps the
LAST image-bearing part's bytes and the LAST non-empty text part as the inline
caption (each later match overwrites the earlier one; the recorded mime type
alone comes from the first image-bearing part); when no part carries an image,
the unit fails with the inline generation-failure message. -/
theorem claim_C3_amended :
    (∀ (parts : List Part) (img : Option String) (cap : String),
      scanParts parts img cap = (lastImageBytes parts img, lastTruthyText parts cap)) ∧
    (∀ (parts : List Part) (prompt : String) (env : Env) (h0 : List HistoryItem)
        (t0 now : Nat),
      prompt ≠ "" →
      env.geminiResponses 0 = .ok (some parts) →
      lastImageBytes parts none = none →
      (generateImages ⟨prompt, 1, GEMINI_MODEL, false⟩ env h0 t0 now).slots
          = [.failed (failMessage prompt)] ∧
      (generateImages ⟨prompt, 1, GEMINI_MODEL, false⟩ env h0 t0 now).generated = [] ∧
      (generateImages ⟨prompt, 1, GEMINI_MODEL, false⟩ env h0 t0 now).outcome = .completed ∧
      (generateImages ⟨prompt, 1, GEMINI_MODEL, false⟩ env h0 t0 now).galleryReplaced
          = some "Image generation failed to produce results. Please try a different prompt.") := by
  constructor
  · intro parts img cap
    exact scanParts_eq parts img cap
  · intro parts prompt env h0 t0 now hp he hni
    have hloop : geminiLoopAux env GEMINI_MODEL (List.replicate 1 prompt) 0
        ⟨List.replicate 1 .loading, [], [], 0⟩
        = geminiStep env GEMINI_MODEL ⟨[SlotState.loading], [], [], 0⟩ 0 prompt := rfl
    have hstep : geminiStep env GEMINI_MODEL ⟨[SlotState.loading], [], [], 0⟩ 0 prompt
        = { slots := [SlotState.failed (failMessage prompt)], generated := [],
            saves := [], calls := 1 } := by
      have hscan := scanParts_eq parts none "Caption not available."
      simp [geminiStep, he, hscan, hni]
    rw [generateImages_eq _ _ _ _ _ hp, runBody_gemini_plain, hloop, hstep]
    simp [finalizeRun]

/-- Witness for C3's amended claim: a single text-only response part makes the
sole unit fail and the run produce zero images. -/
theorem claim_C3_amended_witness :
    (generateImages ⟨"x", 1, GEMINI_MODEL, false⟩ c3WitnessEnv [] 0 0).slots
        = [.failed (failMessage "x")] ∧
    (generateImages ⟨"x", 1, GEMINI_MODEL, false⟩ c3WitnessEnv [] 0 0).generated = [] := by
  have h := (claim_C3_amended).2 [{ text := some "t", inlineData := none }] "x"
    c3WitnessEnv [] 0 0 (by simp) rfl rfl
  exact ⟨h.1, h.2.1⟩

lemma populate_rendered (img : Image) (p c : String) (lz : Except String String) :
    ∃ c2, populateImageContainer img p c lz = .rendered img c2 := by
  unfold populateImageContainer
  by_cases hc : c.isEmpty
  · rcases lz with e | s
    · exact ⟨"Could not generate caption.", by simp [hc]⟩
    · exact ⟨s, by simp [hc]⟩
  · exact ⟨c, by simp [hc]⟩

lemma bulkRenderAux_spec (env : Env) (model prompt : String) (imgs : List Image) :
    ∀ (i : Nat) (st : LoopState), i + imgs.length ≤ st.slots.length →
      ∃ st2, bulkRenderAux env model prompt imgs i st = .ok st2 ∧
        st2.slots.length = st.slots.length ∧
        st2.generated = st.generated ∧
        st2.saves.length = st.saves.length + imgs.length ∧
        (∀ j (hj : j < imgs.length),
          st2.slots[i + j]? = some (populateImageContainer (imgs.get ⟨j, hj⟩) prompt
            (captionOrFallback (env.captionResponses (i + j)))
            (env.lazyCaptionResponses (i + j)))) ∧
        (∀ j, j < i ∨ i + imgs.length ≤ j → st2.slots[j]? = st.slots[j]?) := by
  induction imgs with
  | nil =>
    intro i st _
    refine ⟨st, rfl, rfl, rfl, by simp, ?_, fun j _ => rfl⟩
    intro j hj
    exact absurd hj (by simp)
  | cons img rest ih =>
    intro i st hlen
    have hi : i < st.slots.length := by
      simp only [List.length_cons] at hlen
      omega
    have hrw : bulkRenderAux env model prompt (img :: rest) i st
        = bulkRenderAux env model prompt rest (i + 1)
            { slots := st.slots.set i
                (populateImageContainer img prompt
                  (captionOrFallback (env.captionResponses i))
                  (env.lazyCaptionResponses i)),
              generated := st.generated,
              saves := st.saves ++
                [{ base64 := img.imageBytes, prompt := prompt, model := model,
                   caption := captionOrFallback (env.captionResponses i) }],
              calls := st.calls + 1 } := by
      simp [bulkRenderAux, hi]
    set st1 : LoopState :=
      { slots := st.slots.set i
          (populateImageContainer img prompt
            (captionOrFallback (env.captionResponses i))
            (env.lazyCaptionResponses i)),
        generated := st.generated,
        saves := st.saves ++
          [{ base64 := img.imageBytes, prompt := prompt, model := model,
             caption := captionOrFallback (env.captionResponses i) }],
        calls := st.calls + 1 } with hst1
    have h1len : st1.slots.length = st.slots.length := by simp [hst1]
    obtain ⟨st2, he, ha, hb, hc, hd, hout⟩ := ih (i + 1) st1
      (by simp only [List.length_cons] at hlen; rw [h1len]; omega)
    refine ⟨st2, by rw [hrw]; exact he, by rw [ha, h1len], by rw [hb], ?_, ?_, ?_⟩
    · rw [hc]
      simp [hst1]
      omega
    · intro j hj
      rcases j with _ | jj
      · have h0 : st2.slots[i + 0]? = st1.slots[i + 0]? := by
          apply hout
          omega
        rw [h0]
        simp only [Nat.add_zero, hst1]
        simp [List.getElem?_set_self', hi]
      · have harith : i + (jj + 1) = (i + 1) + jj := by omega
        rw [harith]
        have := hd jj (by simp only [List.length_cons] at hj; omega)
        rw [this]
        rfl
    · intro j hj
      have h1 : st2.slots[j]? = st1.slots[j]? := by
        apply hout
        simp only [List.length_cons] at hj
        omega
      rw [h1]
      simp only [hst1]
      exact List.getElem?_set_ne (by simp only [List.length_cons] at hj; omega)


lemma runBody_bulk_ok (env : Env) (prompt model0 : String) (n : Nat) (imgs : List Image)
    (hmod : (model0 == GEMINI_MODEL) = false)
    (hbulk : env.imagenBulkResponse = .ok imgs) (hne : imgs ≠ []) :
    runBody ⟨prompt, n, model0, false⟩ env
      = bulkRenderAux env model0 prompt imgs 0 ⟨List.replicate n .loading, imgs, [], 1⟩ := by
  simp [runBody, hmod, hbulk, List.length_pos.mpr hne]

lemma finalizeRun_ok_success (req : Request) (h0 : List HistoryItem) (t0 now : Nat)
    (st : LoopState) (first : Image) (rest : List Image)
    (hg : st.generated = first :: rest) :
    finalizeRun req h0 t0 now (.ok st) =
      { outcome := .completed, slots := st.slots, galleryReplaced := none,
        generated := first :: rest,
        history := addToHistory now req.prompt req.selectedModel first h0,
        totalGenerated := t0 + (first :: rest).length,
        saves := st.saves, networkCalls := st.calls,
        orchestrationStarted := true, downloadVisible := true } := by
  simp [finalizeRun, hg]

/-- Claim C10: on the BulkImageModel path without diversification, a batched
response of k images with 1 ≤ k < count is treated as a fully successful run:
exactly the k returned images are rendered (in order) and persisted, a history
entry keyed on the first of them is appended, the running total grows by k —
and the remaining count − k placeholders are never marked failed and never
leave the loading state. -/
theorem claim_C10_partial_bulk (n : Nat) (imgs : List Image) (env : Env)
    (prompt model0 : String) (h0 : List HistoryItem) (t0 now : Nat)
    (hp : prompt ≠ "") (hmod : (model0 == GEMINI_MODEL) = false)
    (hne : imgs ≠ []) (hlt : imgs.length < n)
    (hbulk : env.imagenBulkResponse = .ok imgs) :
    (generateImages ⟨prompt, n, model0, false⟩ env h0 t0 now).outcome = .completed ∧
    (generateImages ⟨prompt, n, model0, false⟩ env h0 t0 now).generated = imgs ∧
    (generateImages ⟨prompt, n, model0, false⟩ env h0 t0 now).saves.length = imgs.length ∧
    (generateImages ⟨prompt, n, model0, false⟩ env h0 t0 now).totalGenerated
        = t0 + imgs.length ∧
    (generateImages ⟨prompt, n, model0, false⟩ env h0 t0 now).downloadVisible = true ∧
    (∀ first rest, imgs = first :: rest →
      (generateImages ⟨prompt, n, model0, false⟩ env h0 t0 now).history =
        { id := now, prompt := prompt, model := model0,
          thumbnail := first.imageBytes, timestamp := now } :: h0) ∧
    (generateImages ⟨prompt, n, model0, false⟩ env h0 t0 now).slots.length = n ∧
    (∀ j (hj : j < imgs.length), ∃ c,
      (generateImages ⟨prompt, n, model0, false⟩ env h0 t0 now).slots[j]?
        = some (.rendered (imgs.get ⟨j, hj⟩) c)) ∧
    (∀ j, imgs.length ≤ j → j < n →
      (generateImages ⟨prompt, n, model0, false⟩ env h0 t0 now).slots[j]?
        = some .loading) := by
  obtain ⟨st2, he, ha, hb, hc, hd, hout⟩ := bulkRenderAux_spec env model0 prompt imgs 0
    ⟨List.replicate n .loading, imgs, [], 1⟩ (by simp; omega)
  have hrb : runBody ⟨prompt, n, model0, false⟩ env = .ok st2 := by
    rw [runBody_bulk_ok env prompt model0 n imgs hmod hbulk hne]
    exact he
  have hgen2 : st2.generated = imgs := hb
  obtain ⟨first, rest, himgs⟩ : ∃ f r, imgs = f :: r := by
    rcases imgs with _ | ⟨f, r⟩
    · exact absurd rfl hne
    · exact ⟨f, r, rfl⟩
  have hst2gen : st2.generated = first :: rest := by rw [hgen2, himgs]
  rw [generateImages_eq _ _ _ _ _ hp, hrb,
    finalizeRun_ok_success _ _ _ _ _ first rest hst2gen]
  refine ⟨rfl, himgs.symm, ?_, ?_, rfl, ?_, ?_, ?_, ?_⟩
  · simpa using hc
  · rw [himgs]
  · intro f2 r2 h2
    rw [himgs] at h2
    injection h2 with e1 e2
    subst e1
    rfl
  · rw [ha]
    simp
  · intro j hj
    have hdj := hd j hj
    rw [Nat.zero_add] at hdj
    obtain ⟨c2, hc2⟩ := populate_rendered (imgs.get ⟨j, hj⟩) prompt
      (captionOrFallback (env.captionResponses j)) (env.lazyCaptionResponses j)
    exact ⟨c2, by rw [hdj, hc2]⟩
  · intro j hj1 hj2
    have h2 := hout j (Or.inr (by omega))
    rw [h2]
    simp [List.getElem?_replicate, hj2]

/-- Witness for C10: a batched imagen call returns 2 of 4 requested images;
the run completes with 2 rendered, persisted units, one history entry, total
+2, and slots 2 and 3 still loading. -/
theorem claim_C10_partial_bulk_witness :
    (generateImages ⟨"a cat", 4, "imagen-4.0-generate-001", false⟩ c10Env [] 0 7).outcome
        = .completed ∧
    (generateImages ⟨"a cat", 4, "imagen-4.0-generate-001", false⟩ c10Env [] 0 7).generated
        = [{ imageBytes := "A", mimeType := "image/png" },
           { imageBytes := "B", mimeType := "image/png" }] ∧
    (generateImages ⟨"a cat", 4, "imagen-4.0-generate-001", false⟩ c10Env [] 0 7).saves.length
        = 2 ∧
    (generateImages ⟨"a cat", 4, "imagen-4.0-generate-001", false⟩ c10Env [] 0 7).totalGenerated
        = 2 ∧
    (generateImages ⟨"a cat", 4, "imagen-4.0-generate-001", false⟩ c10Env [] 0 7).history
        = [{ id := 7, prompt := "a cat", model := "imagen-4.0-generate-001",
             thumbnail := "A", timestamp := 7 }] ∧
    (generateImages ⟨"a cat", 4, "imagen-4.0-generate-001", false⟩ c10Env [] 0 7).slots[2]?
        = some .loading ∧
    (generateImages ⟨"a cat", 4, "imagen-4.0-generate-001", false⟩ c10Env [] 0 7).slots[3]?
        = some .loading := by
  have h := claim_C10_partial_bulk 4
    [{ imageBytes := "A", mimeType := "image/png" },
     { imageBytes := "B", mimeType := "image/png" }]
    c10Env "a cat" "imagen-4.0-generate-001" [] 0 7
    (by simp) (by decide) (by simp) (by decide) rfl
  refine ⟨h.1, h.2.1, h.2.2.1, h.2.2.2.1, ?_, ?_, ?_⟩
  · exact h.2.2.2.2.2.1 { imageBytes := "A", mimeType := "image/png" }
      [{ imageBytes := "B", mimeType := "image/png" }] rfl
  · exact h.2.2.2.2.2.2.2.2 2 (by decide) (by decide)
  · exact h.2.2.2.2.2.2.2.2 3 (by decide) (by decide)


/-- Claim C6, counterexample: in the orchestrator's imagen paths a failing
caption call leaves the fallback `'Caption not available.'` (the local default
of `generateAndProcessImage` / the bulk loop), not the claimed fixed string
`"Could not generate caption."` — so the fallback is NOT the same on every
captioning-failure path. -/
theorem claim_C6_counterexample :
    (generateImages ⟨"a cat", 1, "imagen-4.0-generate-001", false⟩ c6Env [] 0 7).outcome
        = .completed ∧
    (generateImages ⟨"a cat", 1, "imagen-4.0-generate-001", false⟩ c6Env [] 0 7).slots
        = [.rendered goodImage "Caption not available."] ∧
    (generateImages ⟨"a cat", 1, "imagen-4.0-generate-001", false⟩ c6Env [] 0 7).slots
        ≠ [.rendered goodImage "Could not generate caption."] := by
  decide

/-- Claim C6, amended: a captioning failure never fails an image-successful
unit — the unit still renders and the run completes — but the fallback caption
depends on the path: the orchestrator's caption calls fall back to
`'Caption not available.'`, while only the deferred in-renderer caption call
(used when no pregenerated caption is supplied) falls back to
`"Could not generate caption."`. -/
theorem claim_C6_amended :
    (∀ (img : Image) (p e : String),
      populateImageContainer img p "" (.error e)
        = .rendered img "Could not generate caption.") ∧
    (∀ e : String, captionOrFallback (.error e) = "Caption not available.") ∧
    (∀ (n : Nat) (imgs : List Image) (env : Env) (prompt model0 eMsg : String)
        (h0 : List HistoryItem) (t0 now : Nat),
      prompt ≠ "" → (model0 == GEMINI_MODEL) = false → imgs ≠ [] → imgs.length ≤ n →
      env.imagenBulkResponse = .ok imgs →
      (∀ i, env.captionResponses i = .error eMsg) →
      (generateImages ⟨prompt, n, model0, false⟩ env h0 t0 now).outcome = .completed ∧
      (∀ j (hj : j < imgs.length),
        (generateImages ⟨prompt, n, model0, false⟩ env h0 t0 now).slots[j]?
          = some (.rendered (imgs.get ⟨j, hj⟩) "Caption not available."))) := by
  refine ⟨fun img p e => rfl, fun e => rfl, ?_⟩
  intro n imgs env prompt model0 eMsg h0 t0 now hp hmod hne hlen hbulk hcap
  obtain ⟨st2, he, ha, hb, hc, hd, hout⟩ := bulkRenderAux_spec env model0 prompt imgs 0
    ⟨List.replicate n .loading, imgs, [], 1⟩ (by simp; omega)
  have hrb : runBody ⟨prompt, n, model0, false⟩ env = .ok st2 := by
    rw [runBody_bulk_ok env prompt model0 n imgs hmod hbulk hne]
    exact he
  rw [generateImages_eq _ _ _ _ _ hp, hrb]
  refine ⟨finalizeRun_ok_outcome _ _ _ _ _, ?_⟩
  intro j hj
  rw [finalizeRun_ok_slots]
  have hdj := hd j hj
  rw [Nat.zero_add] at hdj
  rw [hdj, hcap j]
  rw [show captionOrFallback (Except.error eMsg) = "Caption not available." from rfl]
  rw [populate_notavail]

/-- Witness for C6's amended claim: one bulk unit whose caption call throws
still renders with the orchestrator fallback. -/
theorem claim_C6_amended_witness :
    (generateImages ⟨"a cat", 1, "imagen-4.0-generate-001", false⟩ c6Env [] 0 7).outcome
        = .completed ∧
    (generateImages ⟨"a cat", 1, "imagen-4.0-generate-001", false⟩ c6Env [] 0 7).slots[0]?
        = some (.rendered goodImage "Caption not available.") := by
  have h := (claim_C6_amended).2.2 1 [goodImage] c6Env "a cat" "imagen-4.0-generate-001"
    "caption backing down" [] 0 7 (by simp) (by decide) (by simp) (by decide) rfl
    (fun i => rfl)
  exact ⟨h.1, h.2 0 (by decide)⟩




end Imagen

